import Mathlib

set_option maxRecDepth 8192

/-!
Verification of the identity-resolution and credential-issuance core of the
baldness-detector repository, shallowly embedded in Lean 4.

Embedded sources:
* `app/oauth/domain/models/user.py` (table `users`),
* `app/oauth/infra/pg_user_repository.py` (`PgUserRepository`),
* `app/oauth/infra/jwt_auth.py` (`JWTAuth`),
* `app/oauth/interfaces/action/auth.py` (`__create_or_get_user`,
  `_authenticate_with_email`),
* `app/oauth/interfaces/dto/user.py` / `dto/auth.py` (pydantic DTO validators),
* `app/services/wallet_service.py` (`WalletService.create_and_assign_wallet`).

Machine integers are modelled as `Nat` (no overflow is relevant to the claims),
timestamps as `Nat`, SQL `NULL` as `Option.none`.  Python truthiness on the
optional strings the code branches on (`if user_dto.google_id:`,
`if user.wallet_address:`) is modelled by `pyTruthyOptStr`: both `None` and
the empty string are falsy.
-/

/-- One row of the `users` table
(`app/oauth/domain/models/user.py`): `id` integer identity primary key,
`email` unique, `name`, nullable `picture`, nullable `google_id` (indexed but
NOT unique, per both the model and the alembic migration), nullable unique
`wallet_address`, `created_at` with server default `now()`. -/
structure UserRow where
  id : Nat
  email : String
  name : String
  picture : Option String
  google_id : Option String
  wallet_address : Option String
  created_at : Nat
deriving DecidableEq

/-- `UserDTO` (`app/oauth/interfaces/dto/user.py`): the claim fields handed to
`PgUserRepository.create_or_update`.  Its `name` field has already passed the
`validate_name` field validator (see `validate_name` below). -/
structure UserDTO where
  email : String
  name : String
  picture : Option String
  google_id : Option String
deriving DecidableEq

/-- The database state: the `users` table rows in insertion order, the
`Identity()` sequence backing `id`, and the clock supplying the
`server_default=func.now()` value of `created_at`. -/
structure DB where
  rows : List UserRow
  nextId : Nat
  clock : Nat
deriving DecidableEq

/-- Python truthiness of an optional string: `None` and `""` are falsy. -/
def pyTruthyOptStr : Option String → Bool
  | none => false
  | some s => s != ""

/-- The storage error surfaced by PostgreSQL when a unique constraint fires
(sqlalchemy `IntegrityError`).  `PgUserRepository` does not catch it. -/
inductive PgError
  | uniqueViolation
deriving DecidableEq

/-- `SELECT ... WHERE users.email == email ... scalars().first()`
(`PgUserRepository.get_by_email`). -/
def get_by_email (db : DB) (email : String) : Option UserRow :=
  db.rows.find? (fun r => r.email == email)

/-- `SELECT ... WHERE users.google_id == google_id ... scalars().first()`
(`PgUserRepository.get_by_google_id`); a SQL `NULL` `google_id` never matches. -/
def get_by_google_id (db : DB) (google_id : String) : Option UserRow :=
  db.rows.find? (fun r => r.google_id == some google_id)

/-- `SELECT ... WHERE users.id == user_id ... scalars().first()`
(`PgUserRepository.get_by_id`). -/
def get_by_id (db : DB) (user_id : Nat) : Option UserRow :=
  db.rows.find? (fun r => r.id == user_id)

/-- The `.values(name=..., picture=..., google_id=...)` clause of the update
statement in `create_or_update`: `name`, `picture` and `google_id` are written
from the DTO unconditionally; `id`, `email`, `wallet_address` and `created_at`
are not part of the statement. -/
def applyProfileUpdate (dto : UserDTO) (r : UserRow) : UserRow :=
  { r with name := dto.name, picture := dto.picture, google_id := dto.google_id }

/-- The row built by `User(email=..., name=..., picture=..., google_id=...)`
in the insert branch of `create_or_update`: `id` from the identity sequence,
`wallet_address` absent, `created_at` from the server clock. -/
def newRow (dto : UserDTO) (db : DB) : UserRow :=
  { id := db.nextId, email := dto.email, name := dto.name, picture := dto.picture,
    google_id := dto.google_id, wallet_address := none, created_at := db.clock }

/-- `PgUserRepository.create_or_update`, with the race window made explicit:
the initial `SELECT` runs against `selDB`, the write is committed against
`commitDB` (in a sequential execution `selDB = commitDB`; they differ exactly
when a concurrent call commits between this call's select and its commit).

* If the select finds a row with the DTO's email, the update statement
  `UPDATE users SET name, picture, google_id WHERE email = dto.email
  RETURNING *` is executed and the first returned row is the result
  (`scalars().first()`, hence `Option`).
* Otherwise the new row is inserted; the commit raises `IntegrityError` iff a
  row with the same email already exists in the commit-time state (the only
  unique constraint an insert can violate: the inserted `wallet_address` is
  `NULL` and `google_id` carries no unique constraint in the schema).

There is no exception handling in the Python method: an `IntegrityError`
propagates to the caller. -/
def create_or_update_at (dto : UserDTO) (selDB commitDB : DB) :
    Except PgError (Option UserRow × DB) :=
  match get_by_email selDB dto.email with
  | some _ =>
      let updatedRows := commitDB.rows.map
        (fun r => if r.email == dto.email then applyProfileUpdate dto r else r)
      let returned := ((commitDB.rows.filter (fun r => r.email == dto.email)).map
        (applyProfileUpdate dto)).head?
      .ok (returned, { commitDB with rows := updatedRows })
  | none =>
      if commitDB.rows.any (fun r => r.email == dto.email) then
        .error .uniqueViolation
      else
        .ok (some (newRow dto commitDB),
          { rows := commitDB.rows ++ [newRow dto commitDB],
            nextId := commitDB.nextId + 1,
            clock := commitDB.clock })

/-- `PgUserRepository.create_or_update` as executed without interference:
select and commit observe the same state. -/
def create_or_update (dto : UserDTO) (db : DB) : Except PgError (Option UserRow × DB) :=
  create_or_update_at dto db db

/-- `PgUserRepository.update_wallet_address`:
`UPDATE users SET wallet_address = :w WHERE id = :user_id RETURNING *`,
then `scalars().first()` and commit.  The statement carries no condition on
the current `wallet_address`; the commit raises iff the unique constraint on
`wallet_address` fires, i.e. some other row already holds the address. -/
def update_wallet_address (db : DB) (user_id : Nat) (wallet_address : String) :
    Except PgError (Option UserRow × DB) :=
  if db.rows.any (fun r => r.id != user_id && r.wallet_address == some wallet_address) then
    .error .uniqueViolation
  else
    let updatedRows := db.rows.map
      (fun r => if r.id == user_id then { r with wallet_address := some wallet_address } else r)
    let returned := ((db.rows.filter (fun r => r.id == user_id)).map
      (fun r => { r with wallet_address := some wallet_address })).head?
    .ok (returned, { db with rows := updatedRows })

/-- `__create_or_get_user` (`app/oauth/interfaces/action/auth.py`): looks up by
email, else (when `user_dto.google_id` is truthy) by `google_id`, and in every
branch delegates the write to `create_or_update`; the `Bool` is the
`is_new_user` flag the caller uses to schedule wallet provisioning. -/
def create_or_get_user (dto : UserDTO) (db : DB) :
    Except PgError (Option UserRow × Bool × DB) :=
  match get_by_email db dto.email with
  | some _ =>
      match create_or_update dto db with
      | .error e => .error e
      | .ok (u, db') => .ok (u, false, db')
  | none =>
      if pyTruthyOptStr dto.google_id then
        match get_by_google_id db (dto.google_id.getD "") with
        | some _ =>
            match create_or_update dto db with
            | .error e => .error e
            | .ok (u, db') => .ok (u, false, db')
        | none =>
            match create_or_update dto db with
            | .error e => .error e
            | .ok (u, db') => .ok (u, true, db')
      else
        match create_or_update dto db with
        | .error e => .error e
        | .ok (u, db') => .ok (u, true, db')

/-!  `WalletService` (`app/services/wallet_service.py`).  The external wallet
creation (`WalletService.create_wallet`, a Thirdweb call or the deterministic
mock) is an external collaborator, modelled as a parameter
`createWallet : Nat → Except String String` (success gives an address, failure
an exception message). -/

/-- The observable outcome of `WalletService.create_and_assign_wallet`:
the returned value (`Optional[str]`), the database state afterwards, and
whether the external wallet-creation endpoint was invoked. -/
structure ProvisionOutcome where
  result : Option String
  db : DB
  externalCalled : Bool
deriving DecidableEq

/-- `WalletService.create_and_assign_wallet(user_id, db_session)`:
re-fetch the user by id (`None` → log and return `None`); if
`user.wallet_address` is truthy, return it without any write or external
call; otherwise call the external `create_wallet` and then
`update_wallet_address`.  The surrounding `try/except` turns any exception
(external failure or `IntegrityError` on commit) into a `None` return. -/
def create_and_assign_wallet (db : DB) (user_id : Nat)
    (createWallet : Nat → Except String String) : ProvisionOutcome :=
  match get_by_id db user_id with
  | none => { result := none, db := db, externalCalled := false }
  | some user =>
      if pyTruthyOptStr user.wallet_address then
        { result := user.wallet_address, db := db, externalCalled := false }
      else
        match createWallet user_id with
        | .error _ => { result := none, db := db, externalCalled := true }
        | .ok addr =>
            match update_wallet_address db user_id addr with
            | .error _ => { result := none, db := db, externalCalled := true }
            | .ok (_, db') => { result := some addr, db := db', externalCalled := true }

/-!  `JWTAuth` (`app/oauth/infra/jwt_auth.py`).  The PyJWT library is an
external collaborator; its wire format and HMAC are modelled abstractly:
a token is either a signed payload or garbage, and the signature is a
deterministic function of the secret and the payload (standing in for
HMAC-SHA256 under the configured `HS256`). -/

/-- The JWT payload built by `create_access_token`:
`sub = str(user_id)`, `email`, `exp`, `iat` (seconds). -/
structure JwtPayload where
  sub : String
  email : String
  exp : Nat
  iat : Nat
deriving DecidableEq

/-- A token string as the decoder sees it: either a well-formed JWT carrying a
payload and a signature, or garbage that fails header/segment parsing. -/
inductive JwtWire
  | signed (payload : JwtPayload) (sig : String)
  | garbage (raw : String)
deriving DecidableEq

/-- The signature PyJWT computes over the payload with the symmetric secret
(model of HMAC-SHA256 under `jwt_algorithm = "HS256"`). -/
def jwtSign (secret : String) (p : JwtPayload) : String :=
  secret ++ "|" ++ p.sub ++ "|" ++ p.email ++ "|" ++ toString p.exp ++ "|" ++ toString p.iat

/-- The exceptions `jwt.decode` raises, all subclasses of `jwt.PyJWTError`:
`DecodeError` for malformed input, `InvalidSignatureError` for a wrong
signature, `ExpiredSignatureError` when the `exp` claim is in the past. -/
inductive JwtError
  | decodeError
  | invalidSignature
  | expiredSignature
deriving DecidableEq

/-- `jwt.decode(token, secret, algorithms=[...])` with default options:
parse, check the signature, then check `exp` against the current time. -/
def jwtDecode (secret : String) (now : Nat) (tok : JwtWire) : Except JwtError JwtPayload :=
  match tok with
  | .garbage _ => .error .decodeError
  | .signed p sig =>
      if sig != jwtSign secret p then .error .invalidSignature
      else if p.exp < now then .error .expiredSignature
      else .ok p

/-- `JWTAuth.verify_token`: `jwt.decode` inside
`try ... except jwt.PyJWTError: return None` — every decoding failure,
whatever its class, is mapped to `None`. -/
def verify_token (secret : String) (now : Nat) (tok : JwtWire) : Option JwtPayload :=
  match jwtDecode secret now tok with
  | .ok p => some p
  | .error _ => none

/-- The Python error raised by a failed attribute lookup. -/
inductive PyErr
  | attributeError
deriving DecidableEq

/-- The attributes resolvable on the `datetime.datetime` *class* (which
`jwt_auth.py` imports as `datetime` via `from datetime import datetime`):
its constructors/class methods and instance descriptors.  Crucially the class
has no attribute named `datetime` and none named `UTC` — those live on the
`datetime` *module*, which is shadowed by the import. -/
def datetimeClassAttrs : List String :=
  ["now", "today", "utcnow", "utcfromtimestamp", "fromtimestamp", "fromordinal",
   "fromisoformat", "fromisocalendar", "combine", "strptime", "strftime",
   "min", "max", "resolution", "year", "month", "day", "hour", "minute",
   "second", "microsecond", "tzinfo", "fold", "date", "time", "timestamp",
   "replace", "astimezone", "isoformat", "weekday", "toordinal"]

/-- Python attribute lookup on the `datetime` class: succeeds exactly for the
attributes the class actually has, otherwise raises `AttributeError`. -/
def datetimeClassGetattr (attrName : String) : Except PyErr String :=
  if datetimeClassAttrs.contains attrName then .ok attrName
  else .error .attributeError

/-- `JWTAuth.create_access_token(user_id, email, expires_delta)`
(`app/oauth/infra/jwt_auth.py`).  `expire` is `now + expires_delta` when
`expires_delta` is truthy (a zero timedelta is falsy), else
`now + jwt_expiration_hours * 3600`.  The `to_encode` dict literal then
evaluates its values in order; the `"iat"` entry is the expression
`datetime.datetime.now(datetime.UTC)`, whose first step is the attribute
lookup of `"datetime"` on the `datetime` class bound by
`from datetime import datetime` — so building the dict raises
`AttributeError` before `jwt.encode` is ever reached. -/
def create_access_token (user_id : Nat) (email : String) (secret : String)
    (now : Nat) (expires_delta : Option Nat) (jwt_expiration_hours : Nat) :
    Except PyErr JwtWire :=
  let expire :=
    match expires_delta with
    | some d => if d != 0 then now + d else now + jwt_expiration_hours * 3600
    | none => now + jwt_expiration_hours * 3600
  match datetimeClassGetattr "datetime" with
  | .error e => .error e
  | .ok _ =>
      let payload : JwtPayload :=
        { sub := toString user_id, email := email, exp := expire, iat := now }
      .ok (.signed payload (jwtSign secret payload))

/-!  DTO validation and the email authentication flow
(`app/oauth/interfaces/dto/user.py`, `dto/auth.py`,
`app/oauth/interfaces/action/auth.py`).  Pydantic's `EmailStr` well-formedness
check is an external library; it is modelled as an abstract parameter
`emailOk : String → Bool` applied where the code applies `EmailStr`. -/

/-- Python `str.strip()`: drop leading and trailing whitespace, counted in
code points.  (Defined over the character list rather than with Lean's
`String.trim`, whose position-based well-founded recursion does not evaluate
inside the kernel; the two agree on the whitespace the validator cares
about.) -/
def pyStrip (s : String) : String :=
  String.mk (((s.data.dropWhile Char.isWhitespace).reverse.dropWhile Char.isWhitespace).reverse)

/-- The `validate_name` field validator shared by `UserDTO` (and
`UserCreateDTO`): reject when the string is falsy or empty after stripping,
reject when the *unstripped* length exceeds 255, otherwise return the
stripped value. -/
def validate_name (v : String) : Except String String :=
  if v == "" || (pyStrip v).length < 1 then .error "Name cannot be empty"
  else if 255 < v.length then .error "Name cannot exceed 255 characters"
  else .ok (pyStrip v)

/-- The body of `POST /auth/email` (`EmailAuthDTO`): `email` validated by
`EmailStr` at request parsing, `name` a plain `str` with **no** validator on
this DTO, optional `picture`. -/
structure EmailAuthRequest where
  email : String
  name : String
  picture : Option String
deriving DecidableEq

/-- The caller-visible outcome of the email flow: a FastAPI request-validation
rejection (HTTP 422, the handler never runs), the handler's catch-all
`HTTPException` 400, or a successful `AuthResponseDTO`. -/
inductive EmailAuthOutcome
  | rejected422
  | rejected400
  | success (user : UserRow) (is_new : Bool) (token : JwtWire)
deriving DecidableEq

/-- `_authenticate_with_email` together with the request parsing of
`EmailAuthDTO`: a malformed email is rejected by FastAPI before the handler
runs (422, state untouched); inside the handler's `try`, constructing
`UserDTO` runs `validate_name` (a `ValueError` is caught by the
`except Exception` and becomes a 400 with the state untouched); then
`__create_or_get_user` commits its write, and finally
`jwt_auth.create_access_token(user.id, user.email)` is called — whose
`AttributeError` (see `create_access_token`) is caught by the same
`except Exception` and becomes a 400, *after* the user row was committed.
The `background_tasks.add_task` scheduling of wallet provisioning is not part
of this state transition: FastAPI only runs background tasks after a
successful response. -/
def email_auth_flow (emailOk : String → Bool) (req : EmailAuthRequest) (db : DB)
    (secret : String) (now : Nat) (jwt_expiration_hours : Nat) :
    EmailAuthOutcome × DB :=
  if emailOk req.email = false then (.rejected422, db)
  else
    match validate_name req.name with
    | .error _ => (.rejected400, db)
    | .ok trimmedName =>
        let dto : UserDTO :=
          { email := req.email, name := trimmedName, picture := req.picture, google_id := none }
        match create_or_get_user dto db with
        | .error _ => (.rejected400, db)
        | .ok (none, _, db') => (.rejected400, db')
        | .ok (some u, isNew, db') =>
            match create_access_token u.id u.email secret now none jwt_expiration_hours with
            | .error _ => (.rejected400, db')
            | .ok tok => (.success u isNew tok, db')

/-!  Concrete sample states and inputs used to settle the claims. -/

/-- A deterministic model of the external wallet-creation endpoint. -/
def cwSample : Nat → Except String String := fun n => .ok ("0x" ++ toString n)

/-- C2: the claims arriving in the racing calls. -/
def dtoC2 : UserDTO := { email := "new@x.com", name := "N", picture := none, google_id := none }

/-- C2: the table before the race, with no row for the email. -/
def dbC2start : DB := { rows := [], nextId := 1, clock := 0 }

/-- C2: the row the winning insert commits. -/
def rowC2 : UserRow :=
  { id := 1, email := "new@x.com", name := "N", picture := none, google_id := none,
    wallet_address := none, created_at := 0 }

/-- C2: the table after the winner's commit. -/
def dbC2win : DB := { rows := [rowC2], nextId := 2, clock := 0 }

/-- C3: the stored account carrying the provider subject id `g1`. -/
def rowC3 : UserRow :=
  { id := 1, email := "old@x.com", name := "Old", picture := none, google_id := some "g1",
    wallet_address := none, created_at := 0 }

/-- C3: a table whose only row matches the claims by `google_id`, not email. -/
def dbC3 : DB := { rows := [rowC3], nextId := 2, clock := 7 }

/-- C3: claims with a fresh email but the stored provider subject id. -/
def dtoC3 : UserDTO := { email := "new@x.com", name := "New", picture := none, google_id := some "g1" }

/-- C3: the row the code actually inserts in that state. -/
def rowC3inserted : UserRow :=
  { id := 2, email := "new@x.com", name := "New", picture := none, google_id := some "g1",
    wallet_address := none, created_at := 7 }

/-- C3: the resulting table, holding two rows with `google_id = "g1"`. -/
def dbC3after : DB := { rows := [rowC3, rowC3inserted], nextId := 3, clock := 7 }

/-- C4: a user with a wallet already assigned. -/
def rowC4 : UserRow :=
  { id := 1, email := "w@x.com", name := "W", picture := none, google_id := none,
    wallet_address := some "0xAAA", created_at := 0 }

/-- C4: the table holding that user. -/
def dbC4 : DB := { rows := [rowC4], nextId := 2, clock := 0 }

/-- C4: the same user after `update_wallet_address` ran with a new address. -/
def rowC4after : UserRow := { rowC4 with wallet_address := some "0xBBB" }

/-- C4: the table after the overwrite. -/
def dbC4after : DB := { dbC4 with rows := [rowC4after] }

/-- C5: the payload of a genuine, correctly signed token expiring at 100. -/
def payloadC5 : JwtPayload := { sub := "42", email := "a@x.com", exp := 100, iat := 0 }

/-- C5: that token on the wire. -/
def tokExpiredC5 : JwtWire := .signed payloadC5 (jwtSign "secret" payloadC5)

/-- C5: a malformed input string. -/
def tokMalformedC5 : JwtWire := .garbage "not-a-jwt"

/-- C6: stored row linked to provider subject `g1`. -/
def rowC6 : UserRow :=
  { id := 1, email := "a@x.com", name := "Old", picture := none, google_id := some "g1",
    wallet_address := none, created_at := 0 }

/-- C6: table holding that row. -/
def dbC6 : DB := { rows := [rowC6], nextId := 2, clock := 0 }

/-- C6: email-flow claims for the same email, carrying no provider subject id. -/
def dtoC6 : UserDTO := { email := "a@x.com", name := "New", picture := none, google_id := none }

/-- C6: the row after the update — its `google_id` has been nulled. -/
def rowC6after : UserRow :=
  { id := 1, email := "a@x.com", name := "New", picture := none, google_id := none,
    wallet_address := none, created_at := 0 }

/-- C6: the table after the update. -/
def dbC6after : DB := { dbC6 with rows := [rowC6after] }

/-- C7: model of `EmailStr` for the samples: accepts strings with an `@`. -/
def emailOkC7 : String → Bool := fun e => e.data.contains '@'

/-- C7: the empty table the sample requests run against. -/
def dbC7 : DB := { rows := [], nextId := 1, clock := 0 }

/-- C7: a name of raw length 256 whose trimmed length is 255. -/
def nameC7long : String := String.mk (List.replicate 255 'a') ++ " "

/-- C7: request with a well-formed email and the boundary name. -/
def reqC7boundary : EmailAuthRequest := { email := "a@x.com", name := nameC7long, picture := none }

/-- C7: request with a malformed email and a valid name. -/
def reqC7bademail : EmailAuthRequest := { email := "not-an-email", name := "Bob", picture := none }

/-- C7: request with a well-formed email and a valid name. -/
def reqC7valid : EmailAuthRequest := { email := "a@x.com", name := "Bob", picture := none }

/-- C7: the row the valid request inserts even though the response is a 400. -/
def rowC7 : UserRow :=
  { id := 1, email := "a@x.com", name := "Bob", picture := none, google_id := none,
    wallet_address := none, created_at := 0 }

/-- C7: the table after the valid request. -/
def dbC7after : DB := { rows := [rowC7], nextId := 2, clock := 0 }

/-- C7 witness: a request whose name is blank after trimming. -/
def reqC7blank : EmailAuthRequest := { email := "e@x.com", name := "   ", picture := none }

/-- C9: a user whose wallet is already present when provisioning re-runs. -/
def rowC9 : UserRow :=
  { id := 1, email := "p@x.com", name := "P", picture := none, google_id := none,
    wallet_address := some "0x1", created_at := 0 }

/-- C9: the table holding that user. -/
def dbC9 : DB := { rows := [rowC9], nextId := 2, clock := 0 }

/-- C10: a second, unrelated row used to observe the frame condition. -/
def rowC10other : UserRow :=
  { id := 2, email := "other@x.com", name := "O", picture := some "p", google_id := some "g2",
    wallet_address := some "0x2", created_at := 3 }

/-- C10: a table with the matched row and an unrelated row. -/
def dbC10 : DB := { rows := [rowC6, rowC10other], nextId := 3, clock := 9 }

/-!  Helper lemmas about the embedded operations. -/

/-- The first match returned by `find?` is the head of `filter`. -/
lemma head?_filter_of_find? {p : UserRow → Bool} {l : List UserRow} {a : UserRow}
    (h : l.find? p = some a) : (l.filter p).head? = some a := by
  induction l with
  | nil => simp at h
  | cons b l ih =>
      by_cases hb : p b
      · rw [List.find?_cons_of_pos _ hb] at h
        rw [List.filter_cons_of_pos hb]
        simpa using h
      · rw [List.find?_cons_of_neg _ hb] at h
        rw [List.filter_cons_of_neg hb]
        exact ih h

/-- `find?` commutes with a map that does not change whether the predicate
holds. -/
lemma find?_map_of_pred_stable {p : UserRow → Bool} {f : UserRow → UserRow}
    (hf : ∀ r, p (f r) = p r) (l : List UserRow) :
    (l.map f).find? p = (l.find? p).map f := by
  induction l with
  | nil => rfl
  | cons a l ih =>
      by_cases ha : p a
      · rw [List.map_cons, List.find?_cons_of_pos _ (by rw [hf]; exact ha),
          List.find?_cons_of_pos _ ha]
        rfl
      · rw [List.map_cons, List.find?_cons_of_neg _ (by rw [hf]; exact ha),
          List.find?_cons_of_neg _ ha, ih]

/-- When the select finds a row with the DTO's email, `create_or_update`
executes the update statement: the result is the first matching row with the
profile fields overwritten, and the table is the pointwise update. -/
lemma create_or_update_found {dto : UserDTO} {db : DB} {u0 : UserRow}
    (h : get_by_email db dto.email = some u0) :
    create_or_update dto db =
      .ok (some (applyProfileUpdate dto u0),
        { db with rows := db.rows.map (fun r => if r.email == dto.email then applyProfileUpdate dto r else r) }) := by
  unfold create_or_update create_or_update_at
  rw [h]
  unfold get_by_email at h
  simp only [List.head?_map, head?_filter_of_find? h]
  rfl

/-- When the select finds no row with the DTO's email, `create_or_update`
executes the insert, which commits cleanly (no row with that email exists at
commit time either, in this uninterfered execution). -/
lemma create_or_update_notfound {dto : UserDTO} {db : DB}
    (h : get_by_email db dto.email = none) :
    create_or_update dto db =
      .ok (some (newRow dto db),
        { rows := db.rows ++ [newRow dto db], nextId := db.nextId + 1,
          clock := db.clock }) := by
  unfold create_or_update create_or_update_at
  rw [h]
  unfold get_by_email at h
  have hany : db.rows.any (fun r => r.email == dto.email) = false := by
    rw [Bool.eq_false_iff]
    intro hc
    obtain ⟨x, hx, hpx⟩ := List.any_eq_true.mp hc
    exact List.find?_eq_none.mp h x hx hpx
  rw [hany]
  simp

/-- `applyProfileUpdate` touches neither the row identity nor the wallet. -/
lemma applyProfileUpdate_frame (dto : UserDTO) (r : UserRow) :
    (applyProfileUpdate dto r).id = r.id ∧
    (applyProfileUpdate dto r).email = r.email ∧
    (applyProfileUpdate dto r).created_at = r.created_at ∧
    (applyProfileUpdate dto r).wallet_address = r.wallet_address :=
  ⟨rfl, rfl, rfl, rfl⟩

/-- The table produced by a successful `update_wallet_address` is the
pointwise conditional rewrite of the wallet column at the targeted id. -/
lemma update_wallet_address_ok_rows {db : DB} {uid : Nat} {addr : String}
    {ret : Option UserRow} {db' : DB}
    (h : update_wallet_address db uid addr = .ok (ret, db')) :
    db'.rows = db.rows.map
      (fun x => if x.id == uid then { x with wallet_address := some addr } else x) := by
  unfold update_wallet_address at h
  by_cases hany : (db.rows.any fun x => x.id != uid && x.wallet_address == some addr) = true
  · rw [if_pos hany] at h
    cases h
  · rw [if_neg hany] at h
    injection h with h
    have h2 := congrArg Prod.snd h
    exact (congrArg DB.rows h2).symm

/-!  The claims. -/

/-- C1: issuing a credential can never succeed — for every `user_id`, `email`,
clock value, `expires_delta` and configured default ttl,
`JWTAuth.create_access_token` raises `AttributeError` while building the
`to_encode` dict, because its `"iat"` entry evaluates `datetime.datetime`
on the `datetime` class imported by `from datetime import datetime`.  The
claimed issue/verify round trip is therefore unreachable. -/
theorem C1_create_access_token_raises (user_id : Nat) (email secret : String)
    (now : Nat) (expires_delta : Option Nat) (jwt_expiration_hours : Nat) :
    create_access_token user_id email secret now expires_delta jwt_expiration_hours =
      .error .attributeError := by
  unfold create_access_token
  rfl

/-- C2, counterexample: with the email absent, the winning call's commit
succeeds, and the losing call — whose select still saw the pre-race state —
raises the uniqueness violation to its caller instead of falling back to the
update path and returning the winner's row. -/
theorem C2_counterexample :
    create_or_update_at dtoC2 dbC2start dbC2start = .ok (some rowC2, dbC2win) ∧
    create_or_update_at dtoC2 dbC2start dbC2win = .error .uniqueViolation :=
  ⟨rfl, rfl⟩

/-- C2, amended: when two `create_or_update` calls race on the same unseen
email, exactly one insert succeeds and exactly one row with that email
remains, but the loser does not detect the violation: `create_or_update`
has no exception handling, so the `IntegrityError` propagates to the caller
and the loser never returns the winner's row. -/
theorem C2_race_loser_raises (dto : UserDTO) (s : DB)
    (h : get_by_email s dto.email = none) :
    ∃ u s1,
      create_or_update_at dto s s = .ok (some u, s1) ∧
      u.email = dto.email ∧
      (s1.rows.filter (fun r => r.email == dto.email)).length = 1 ∧
      create_or_update_at dto s s1 = .error .uniqueViolation := by
  have h1 := create_or_update_notfound h
  unfold create_or_update at h1
  refine ⟨newRow dto s, _, h1, rfl, ?_, ?_⟩
  · rw [List.filter_append]
    have hnil : s.rows.filter (fun r => r.email == dto.email) = [] := by
      rw [List.filter_eq_nil_iff]
      intro a ha
      exact List.find?_eq_none.mp h a ha
    rw [hnil]
    have hnew : ((newRow dto s).email == dto.email) = true := by
      simp [newRow]
    simp [List.filter, hnew]
  · unfold create_or_update_at
    rw [h]
    have hany : (s.rows ++ [newRow dto s]).any (fun r => r.email == dto.email) = true := by
      refine List.any_eq_true.mpr ⟨newRow dto s, ?_, ?_⟩
      · simp
      · simp [newRow]
    simp only [hany]
    rfl

/-- C2, witness for the amended theorem, at the empty table. -/
theorem C2_race_loser_raises_witness :
    get_by_email dbC2start dtoC2.email = none ∧
    (∃ u s1,
      create_or_update_at dtoC2 dbC2start dbC2start = .ok (some u, s1) ∧
      u.email = dtoC2.email ∧
      (s1.rows.filter (fun r => r.email == dtoC2.email)).length = 1 ∧
      create_or_update_at dtoC2 dbC2start s1 = .error .uniqueViolation) :=
  ⟨rfl, C2_race_loser_raises dtoC2 dbC2start rfl⟩

/-- C3: in a state where no row has the claims' email but a row matches the
claims' `google_id`, the orchestration does not update that row in place:
`__create_or_get_user` delegates to `create_or_update`, which keys only on
email and therefore inserts a brand-new row (the schema has no unique
constraint on `google_id`), returning the inserted row with `is_new = false`.
The table ends with two rows carrying the same `google_id`. -/
theorem C3_google_id_match_inserts_duplicate :
    create_or_get_user dtoC3 dbC3 = .ok (some rowC3inserted, false, dbC3after) ∧
    dbC3after.rows.length = 2 ∧
    rowC3inserted.id ≠ rowC3.id ∧
    (dbC3after.rows.filter (fun r => r.google_id == some "g1")).length = 2 :=
  ⟨rfl, rfl, by decide, by decide⟩

/-- C4, counterexample: `update_wallet_address` carries no condition on the
stored wallet — called on a user whose `wallet_address` is `"0xAAA"`, it
overwrites it with `"0xBBB"`. -/
theorem C4_counterexample :
    update_wallet_address dbC4 1 "0xBBB" = .ok (some rowC4after, dbC4after) ∧
    rowC4.wallet_address = some "0xAAA" ∧
    rowC4after.wallet_address = some "0xBBB" :=
  ⟨rfl, rfl, rfl⟩

/-- C5, counterexample: a well-formed, correctly signed token past its `exp`
and a malformed input fail `jwt.decode` with different exceptions, but
`JWTAuth.verify_token` catches every `PyJWTError` and maps both to `None`:
the caller cannot distinguish the two failure kinds.  (The final conjunct
checks that the expired token is genuine: before `exp` it verifies.) -/
theorem C5_counterexample :
    jwtDecode "secret" 200 tokExpiredC5 = .error .expiredSignature ∧
    jwtDecode "secret" 200 tokMalformedC5 = .error .decodeError ∧
    verify_token "secret" 200 tokExpiredC5 = none ∧
    verify_token "secret" 200 tokMalformedC5 = none ∧
    verify_token "secret" 50 tokExpiredC5 = some payloadC5 :=
  ⟨rfl, rfl, rfl, rfl, rfl⟩

/-- C5, amended: `verify_token` fails on malformed input, on a bad signature
and on an expired token, but all failure kinds collapse to the single value
`None`; no distinguishable `InvalidToken`/`ExpiredToken` errors reach the
caller. -/
theorem C5_verify_failures_collapse (secret : String) (now : Nat)
    (tok : JwtWire) (e : JwtError) (h : jwtDecode secret now tok = .error e) :
    verify_token secret now tok = none := by
  unfold verify_token
  rw [h]

/-- C5, witness for the amended theorem, at a malformed token. -/
theorem C5_verify_failures_collapse_witness :
    jwtDecode "secret" 200 tokMalformedC5 = .error .decodeError ∧
    verify_token "secret" 200 tokMalformedC5 = none :=
  ⟨rfl, C5_verify_failures_collapse "secret" 200 tokMalformedC5 .decodeError rfl⟩

/-- C6, counterexample: the stored row has `google_id = "g1"`; email-flow
claims for the same email carry no provider subject id, yet after
`create_or_update` the stored `google_id` is `None` — it was overwritten,
not left unchanged. -/
theorem C6_counterexample :
    create_or_update dtoC6 dbC6 = .ok (some rowC6after, dbC6after) ∧
    rowC6.google_id = some "g1" ∧
    rowC6after.google_id = none :=
  ⟨rfl, rfl, rfl⟩

/-- C6, amended: on the email-match path `create_or_update` writes `name`,
`picture` and `google_id` from the claims unconditionally; when the claims
carry no `provider_subject_id` the stored `google_id` is overwritten with
`NULL` rather than preserved. -/
theorem C6_email_match_overwrites_google_id (dto : UserDTO) (db : DB)
    (u0 : UserRow) (hfound : get_by_email db dto.email = some u0) :
    ∃ u db',
      create_or_update dto db = .ok (some u, db') ∧
      u.name = dto.name ∧ u.picture = dto.picture ∧ u.google_id = dto.google_id :=
  ⟨_, _, create_or_update_found hfound, rfl, rfl, rfl⟩

/-- C6, witness for the amended theorem: the overwritten row of the
counterexample state. -/
theorem C6_email_match_overwrites_google_id_witness :
    get_by_email dbC6 dtoC6.email = some rowC6 ∧
    (∃ u db',
      create_or_update dtoC6 dbC6 = .ok (some u, db') ∧
      u.name = dtoC6.name ∧ u.picture = dtoC6.picture ∧ u.google_id = dtoC6.google_id) :=
  ⟨rfl, C6_email_match_overwrites_google_id dtoC6 dbC6 rowC6 rfl⟩

/-- C9: when the re-fetched user already has a (truthy) `wallet_address`,
`WalletService.create_and_assign_wallet` returns that address with no
external wallet-creation call and no change to the table — re-invoking
provisioning for an already-provisioned user is a no-op. -/
theorem C9_provision_noop_on_present_wallet (db : DB) (uid : Nat)
    (cw : Nat → Except String String) (u : UserRow)
    (hu : get_by_id db uid = some u)
    (hw : pyTruthyOptStr u.wallet_address = true) :
    create_and_assign_wallet db uid cw =
      { result := u.wallet_address, db := db, externalCalled := false } := by
  unfold create_and_assign_wallet
  rw [hu]
  simp [hw]

/-- C9, witness: an already-provisioned user. -/
theorem C9_provision_noop_on_present_wallet_witness :
    get_by_id dbC9 1 = some rowC9 ∧
    pyTruthyOptStr rowC9.wallet_address = true ∧
    create_and_assign_wallet dbC9 1 cwSample =
      { result := rowC9.wallet_address, db := dbC9, externalCalled := false } :=
  ⟨rfl, rfl, C9_provision_noop_on_present_wallet dbC9 1 cwSample rowC9 rfl rfl⟩

/-- C4, amended: `update_wallet_address` itself is an unconditional single-row
write (see the counterexample), but the write-once discipline holds along the
core's provisioning path: `create_and_assign_wallet` re-fetches the user and
returns without writing when a wallet is present, so under the primary-key
invariant (distinct row ids) any row whose `wallet_address` is already
(truthily) present survives provisioning unchanged. -/
theorem C4_provisioning_never_overwrites (db : DB) (uid : Nat)
    (cw : Nat → Except String String) (r : UserRow)
    (hids : (db.rows.map UserRow.id).Nodup)
    (hr : r ∈ db.rows)
    (hw : pyTruthyOptStr r.wallet_address = true) :
    r ∈ (create_and_assign_wallet db uid cw).db.rows := by
  unfold create_and_assign_wallet
  split
  · exact hr
  · rename_i u hget
    split
    · exact hr
    · rename_i hwu
      split
      · exact hr
      · rename_i addr hcw
        split
        · exact hr
        · rename_i ret db' hupd
          have hrows := update_wallet_address_ok_rows hupd
          have hrid : (r.id == uid) = false := by
            rw [beq_eq_false_iff_ne]
            intro hEq
            unfold get_by_id at hget
            have humem := List.mem_of_find?_eq_some hget
            have huid : u.id = uid := by simpa using List.find?_some hget
            have hru : r = u :=
              List.inj_on_of_nodup_map hids hr humem (by rw [hEq, huid])
            rw [hru] at hw
            exact hwu hw
          have hmem := List.mem_map_of_mem
            (fun x : UserRow => if x.id == uid then { x with wallet_address := some addr } else x) hr
          simp only [hrid, Bool.false_eq_true, if_false] at hmem
          show r ∈ db'.rows
          rw [hrows]
          exact hmem

/-- C4, witness for the amended theorem: an already-provisioned row survives a
provisioning run aimed at it. -/
theorem C4_provisioning_never_overwrites_witness :
    (dbC4.rows.map UserRow.id).Nodup ∧ rowC4 ∈ dbC4.rows ∧
    pyTruthyOptStr rowC4.wallet_address = true ∧
    rowC4 ∈ (create_and_assign_wallet dbC4 1 cwSample).db.rows :=
  ⟨by decide, by decide, by decide,
    C4_provisioning_never_overwrites dbC4 1 cwSample rowC4 (by decide) (by decide) (by decide)⟩

/-- C8: calling `create_or_update` twice in sequence with identical claims,
from any starting table, returns rows with the same `id` both times; the
first call grows the table by at most one row and the second call grows it by
none. -/
theorem C8_create_or_update_idempotent (dto : UserDTO) (s : DB) :
    ∃ u1 s1 u2 s2,
      create_or_update dto s = .ok (some u1, s1) ∧
      create_or_update dto s1 = .ok (some u2, s2) ∧
      u2.id = u1.id ∧
      s2.rows.length = s1.rows.length ∧
      s1.rows.length ≤ s.rows.length + 1 := by
  cases hfind : get_by_email s dto.email with
  | some u0 =>
      have h1 := create_or_update_found hfind
      have hstable : ∀ r : UserRow,
          ((if r.email == dto.email then applyProfileUpdate dto r else r).email == dto.email) =
            (r.email == dto.email) := by
        intro r
        by_cases hre : (r.email == dto.email) = true
        · rw [if_pos hre]
          exact hre.symm ▸ hre
        · rw [if_neg hre]
      have hp : (u0.email == dto.email) = true := by
        unfold get_by_email at hfind
        have h0 := List.find?_some hfind
        simpa using h0
      have hfind2 :
          get_by_email { s with rows := s.rows.map (fun r => if r.email == dto.email then applyProfileUpdate dto r else r) } dto.email =
            some (applyProfileUpdate dto u0) := by
        unfold get_by_email at hfind ⊢
        rw [find?_map_of_pred_stable hstable, hfind]
        simp only [Option.map_some', if_pos hp]
      have h2 := create_or_update_found hfind2
      exact ⟨_, _, _, _, h1, h2, rfl, by simp, by simp⟩
  | none =>
      have h1 := create_or_update_notfound hfind
      have hfind2 :
          get_by_email { rows := s.rows ++ [newRow dto s], nextId := s.nextId + 1, clock := s.clock } dto.email =
            some (newRow dto s) := by
        unfold get_by_email at hfind ⊢
        rw [List.find?_append, hfind]
        simp [newRow]
      have h2 := create_or_update_found hfind2
      exact ⟨_, _, _, _, h1, h2, rfl, by simp, by simp⟩

/-- C10: on the email-match path, `create_or_update` returns the matched row
with only `name`, `picture` and `google_id` rewritten; every row keeps its
`id`, `email`, `created_at` and `wallet_address`, and every row whose email
differs from the claims' is left entirely unchanged. -/
theorem C10_email_update_frame (dto : UserDTO) (db : DB) (u0 : UserRow)
    (hfound : get_by_email db dto.email = some u0) :
    ∃ db',
      create_or_update dto db = .ok (some (applyProfileUpdate dto u0), db') ∧
      db'.rows.length = db.rows.length ∧
      (∀ i (h : i < db.rows.length) (h' : i < db'.rows.length),
        (db'.rows[i]).id = (db.rows[i]).id ∧
        (db'.rows[i]).email = (db.rows[i]).email ∧
        (db'.rows[i]).created_at = (db.rows[i]).created_at ∧
        (db'.rows[i]).wallet_address = (db.rows[i]).wallet_address ∧
        ((db.rows[i]).email ≠ dto.email → db'.rows[i] = db.rows[i])) := by
  refine ⟨_, create_or_update_found hfound, by simp, ?_⟩
  intro i h h'
  simp only [List.getElem_map]
  by_cases he : ((db.rows[i]).email == dto.email) = true
  · rw [if_pos he]
    exact ⟨rfl, rfl, rfl, rfl, fun hne => absurd (beq_iff_eq.mp he) hne⟩
  · rw [if_neg he]
    exact ⟨rfl, rfl, rfl, rfl, fun _ => rfl⟩

/-- C10, witness: a two-row table where one row matches the claims' email. -/
theorem C10_email_update_frame_witness :
    get_by_email dbC10 dtoC6.email = some rowC6 ∧
    (∃ db',
      create_or_update dtoC6 dbC10 = .ok (some (applyProfileUpdate dtoC6 rowC6), db') ∧
      db'.rows.length = dbC10.rows.length ∧
      (∀ i (h : i < dbC10.rows.length) (h' : i < db'.rows.length),
        (db'.rows[i]).id = (dbC10.rows[i]).id ∧
        (db'.rows[i]).email = (dbC10.rows[i]).email ∧
        (db'.rows[i]).created_at = (dbC10.rows[i]).created_at ∧
        (db'.rows[i]).wallet_address = (dbC10.rows[i]).wallet_address ∧
        ((dbC10.rows[i]).email ≠ dtoC6.email → db'.rows[i] = dbC10.rows[i]))) :=
  ⟨rfl, C10_email_update_frame dtoC6 dbC10 rowC6 rfl⟩

/-- C7, counterexample: three sample requests against an empty table refute
the claim as stated.  A name of raw length 256 whose trimmed length is 255 —
inside the claim's acceptance region — is rejected with a 400 (the validator
checks the unstripped length); a malformed email is rejected at request
parsing as a 422, not a 400; and a fully valid request is still answered with
a 400, because token issuance raises (C1), although its user row was
committed first. -/
theorem C7_counterexample :
    (1 ≤ (pyStrip nameC7long).length ∧ (pyStrip nameC7long).length ≤ 255 ∧
      email_auth_flow emailOkC7 reqC7boundary dbC7 "sec" 0 24 = (.rejected400, dbC7)) ∧
    email_auth_flow emailOkC7 reqC7bademail dbC7 "sec" 0 24 = (.rejected422, dbC7) ∧
    (email_auth_flow emailOkC7 reqC7valid dbC7 "sec" 0 24 = (.rejected400, dbC7after) ∧
      dbC7after.rows.length = 1) :=
  ⟨⟨by decide, by decide, by decide⟩, by decide, by decide, by decide⟩

/-- C7, amended: the email flow rejects with a 400, touching no user row,
every request whose name is empty after trimming or whose *untrimmed* name
exceeds 255 characters (the validator checks the raw length, so a name of
raw length 256 that trims to 255 is rejected); a malformed email is rejected
at request parsing (422), also touching no row; and a request passing both
validations executes create-or-update but currently still receives a 400,
because access-token creation raises (C1) — its user row remains committed. -/
theorem C7_invalid_name_rejected (emailOk : String → Bool) (req : EmailAuthRequest)
    (db : DB) (secret : String) (now hours : Nat)
    (hmail : emailOk req.email = true)
    (hname : (pyStrip req.name).length < 1 ∨ 255 < req.name.length) :
    email_auth_flow emailOk req db secret now hours = (.rejected400, db) := by
  have hval : validate_name req.name = .error "Name cannot be empty" ∨
      validate_name req.name = .error "Name cannot exceed 255 characters" := by
    unfold validate_name
    rcases hname with h1 | h2
    · left
      rw [if_pos (by simp [h1])]
    · by_cases h0 : (req.name == "" || (pyStrip req.name).length < 1) = true
      · left
        rw [if_pos h0]
      · right
        rw [if_neg h0, if_pos (by simp [h2])]
  unfold email_auth_flow
  rw [hmail]
  rw [if_neg (by simp : ¬ (true = false))]
  rcases hval with hv | hv <;> rw [hv]

/-- C7, witness for the amended theorem: a whitespace-only name. -/
theorem C7_invalid_name_rejected_witness :
    emailOkC7 reqC7blank.email = true ∧
    ((pyStrip reqC7blank.name).length < 1 ∨ 255 < reqC7blank.name.length) ∧
    email_auth_flow emailOkC7 reqC7blank dbC7 "sec" 0 24 = (.rejected400, dbC7) :=
  ⟨by decide, by decide,
    C7_invalid_name_rejected emailOkC7 reqC7blank dbC7 "sec" 0 24 (by decide) (by decide)⟩
